import Mathlib

/-!
Verification of the AgriResQ weather-claim validation engine.

The development shallowly embeds the two validator variants of the
repository (`scripts/machine-learning-model/src/a.py`, the enhanced
variant, and `scripts/machine-learning-model/src/WeatherClaimValidator.py`,
the earlier variant) in Lean.

Modelling conventions, used throughout:
* Python floats become exact rationals `ℚ`; the standard deviation, which
  floats compute with `sqrt`, becomes a real number via `Real.sqrt`.
* Calendar dates become integers (day numbers); `strptime`/`timedelta`
  arithmetic becomes integer subtraction.
* A pandas reduction over an empty series yields `NaN`; since no claim
  depends on the `NaN` value itself, the embedding returns `0` there
  (rational division by zero is `0` in Lean), noted at each such spot.
* Python dictionaries with optional keys become structures with `Option`
  fields; `dict.get(key, default)` becomes `Option.getD`.
* A Python function that can raise an exception on some inputs returns
  `Option` (with `none` for the raising inputs).
-/

/-! ## Series helpers (pandas semantics over `List ℚ`) -/

/-- Mean of a series, `Series.mean()`: sum divided by length.  An empty
series yields `0` (pandas: `NaN`). -/
def seriesMean (xs : List ℚ) : ℚ := xs.sum / xs.length

/-- Maximum of a series, `Series.max()`.  An empty series yields `0`
(pandas: `NaN`). -/
def seriesMax : List ℚ → ℚ
  | [] => 0
  | x :: xs => xs.foldl max x

/-- Minimum of a series, `Series.min()`.  An empty series yields `0`
(pandas: `NaN`). -/
def seriesMin : List ℚ → ℚ
  | [] => 0
  | x :: xs => xs.foldl min x

/-- Insert into a sorted list (ascending). -/
def insertAsc {α : Type} [LinearOrder α] (x : α) : List α → List α
  | [] => [x]
  | y :: ys => if x ≤ y then x :: y :: ys else y :: insertAsc x ys

/-- Insertion sort, ascending; models the sort performed inside
`Series.quantile` and the sorted group keys of `groupby`. -/
def sortAsc {α : Type} [LinearOrder α] : List α → List α
  | [] => []
  | x :: xs => insertAsc x (sortAsc xs)

/-- `Series.quantile(q)` with pandas' default linear interpolation:
on the sorted series `s` of length `n`, position `pos = q * (n - 1)`,
`i = ⌊pos⌋`, result `s[i] + (pos - i) * (s[i+1] - s[i])` (clamped at the
top).  An empty series yields `0` (pandas: `NaN`). -/
def pandasQuantile (xs : List ℚ) (q : ℚ) : ℚ :=
  let s := sortAsc xs
  let n := s.length
  if n = 0 then 0
  else
    let pos : ℚ := q * ((n : ℚ) - 1)
    let i : ℕ := (⌊pos⌋ : ℤ).toNat
    let frac : ℚ := pos - (⌊pos⌋ : ℤ)
    if i + 1 < n then s.getD i 0 + frac * (s.getD (i + 1) 0 - s.getD i 0)
    else s.getD i 0

/-- Sample variance with `ddof = 1`, the quantity under the square root of
`Series.std()`.  A series of length `≤ 1` yields `0` by the division
convention (pandas: `NaN`). -/
def sampleVariance (xs : List ℚ) : ℚ :=
  ((xs.map fun x => (x - seriesMean xs) ^ 2).sum) / ((xs.length : ℚ) - 1)

/-- `Series.std()`: square root of the sample variance. -/
noncomputable def seriesStd (xs : List ℚ) : ℝ := Real.sqrt ((sampleVariance xs : ℚ) : ℝ)

/-- `Series.diff().mean()`: mean of the day-over-day deltas.  The leading
`NaN` of `diff` is skipped by `mean`, so this is the mean of the `n - 1`
consecutive differences. -/
def diffMean (xs : List ℚ) : ℚ := seriesMean (List.zipWith (fun a b => a - b) xs.tail xs)

/-! ## String helpers (Python `str` operations over `List Char`)

Lean's built-in `String` functions are defined by well-founded recursion
and do not reduce in the kernel, so the Python string operations the
gateway needs are re-implemented structurally over `List Char`. -/

/-- `str.lower()` (character-wise). -/
def pyLower (s : String) : String := String.mk (s.data.map Char.toLower)

/-- Whether `pat` occurs at the head of `cs`. -/
def charsStart : List Char → List Char → Bool
  | [], _ => true
  | _ :: _, [] => false
  | p :: ps, c :: cs => p = c && charsStart ps cs

/-- The part of `s` before the first occurrence of `sep`:
Python `s.split(sep)[0]`.  (For an empty `sep` Python raises `ValueError`,
which the caller turns into the same `0.0` this definition leads to.) -/
def splitFirst (sep : List Char) : List Char → List Char
  | [] => []
  | c :: cs => if charsStart sep (c :: cs) then [] else c :: splitFirst sep cs

/-- ASCII whitespace, for `str.strip()`. -/
def isPySpace (c : Char) : Bool := c = ' ' || c = '\t' || c = '\n' || c = '\r'

/-- `str.strip()` on ASCII whitespace. -/
def pyStrip (cs : List Char) : List Char :=
  ((cs.dropWhile isPySpace).reverse.dropWhile isPySpace).reverse

/-- Digit-string to number; `none` when the string is empty or contains a
non-digit. -/
def parseNatDigits : List Char → Option ℕ
  | [] => none
  | cs => if cs.all Char.isDigit then
      some (cs.foldl (fun acc c => acc * 10 + (c.toNat - 48)) 0)
    else none

/-- Split a character list at the first `'.'`, if any. -/
def splitAtDot : List Char → List Char × Option (List Char)
  | [] => ([], none)
  | c :: cs =>
    if c = '.' then ([], some cs)
    else
      let r := splitAtDot cs
      (c :: r.1, r.2)

/-- Unsigned part of Python `float()` on a decimal literal: digits, an
optional dot, and an optional fraction (at least one digit overall). -/
def pyFloatUnsigned (cs : List Char) : Option ℚ :=
  let parts := splitAtDot cs
  match parts.2 with
  | none => (parseNatDigits parts.1).map fun n => (n : ℚ)
  | some fracPart =>
    if parts.1.isEmpty && fracPart.isEmpty then none
    else
      let ip := if parts.1.isEmpty then some 0 else parseNatDigits parts.1
      let fp := if fracPart.isEmpty then some 0 else parseNatDigits fracPart
      match ip, fp with
      | some i, some f => some ((i : ℚ) + (f : ℚ) / (10 : ℚ) ^ fracPart.length)
      | _, _ => none

/-- Python `float()` on signed decimal literals.  (Exponent notation and
`inf`/`nan` are not modelled; the provider payloads are plain decimals.) -/
def pyFloat (cs : List Char) : Option ℚ :=
  match cs with
  | '-' :: rest => (pyFloatUnsigned rest).map fun q => -q
  | '+' :: rest => pyFloatUnsigned rest
  | _ => pyFloatUnsigned cs

/-! ## Data model -/

/-- A single point-in-time weather reading, after unit-suffix parsing. -/
structure Observation where
  rainfall : ℚ
  temperature : ℚ
  humidity : ℚ
  location : String
  date : ℤ
deriving DecidableEq

/-- The provider's JSON payload: unit-suffixed string fields, each
possibly absent (`data.get(key, '0')` supplies the default). -/
structure ProviderPayload where
  rainfall : Option String
  temperature : Option String
  humidity : Option String

/-- A structured claim as the engine receives it: a Python dict whose
keys may each be absent. -/
structure ClaimDetails where
  location : Option String
  date : Option ℤ
  eventType : Option String
  severity : Option String
  days : Option ℤ
  dateDescriptor : Option String

/-! ## WeatherDataGateway (`a.py`: `get_weather_data`, `_parse_numeric_value`) -/

/-- `_parse_numeric_value(value_str, unit)`:
`float(str(value_str).split(unit)[0].strip())`, and `0.0` on
`ValueError`/`IndexError`. -/
def parseNumericValue (value_str unit : String) : ℚ :=
  (pyFloat (pyStrip (splitFirst unit.data value_str.data))).getD 0

/-- The success path of `get_weather_data` (2xx response, JSON decoded):
parse the three unit-suffixed fields of the payload, defaulting each
absent field to the string `'0'`.  Transport failures are modelled at the
call sites by gateway functions returning `none`. -/
def getWeatherData (location : String) (date : ℤ) (payload : ProviderPayload) : Observation :=
  { rainfall := parseNumericValue (payload.rainfall.getD "0") "mm"
    temperature := parseNumericValue (payload.temperature.getD "0") "°"
    humidity := parseNumericValue (payload.humidity.getD "0") "%"
    location := location
    date := date }

/-! ## Consecutive dry days (`_count_consecutive_low_rainfall_days`, both variants) -/

/-- The dry/wet flags: `historical_data['rainfall'] < threshold` with the
fixed threshold `0.1` (both call sites use it). -/
def dryFlags (xs : List ℚ) : List Bool := xs.map fun r => decide (r < 1 / 10)

/-- Partition a boolean sequence into maximal runs of identical value;
this is what the pandas `groupby((s != s.shift()).cumsum())` trick
computes. -/
def runsOfEqual : List Bool → List (List Bool)
  | [] => []
  | [b] => [[b]]
  | b :: c :: cs =>
    let rs := runsOfEqual (c :: cs)
    if b = c then (b :: rs.headD []) :: rs.tail
    else [b] :: rs

/-- Maximum of the per-group sums of the boolean series, the
`.sum().max()` of the pandas trick: a dry (all-`true`) run of length `k`
sums to `k`, a wet run to `0`.  An empty group list yields `0`
(pandas: `NaN`). -/
def runsScore : List (List Bool) → ℕ
  | [] => 0
  | run :: rest => max (if run.headD false then run.length else 0) (runsScore rest)

/-- `_count_consecutive_low_rainfall_days`: the maximum of the per-group
sums.  An empty series yields `0` (pandas: `NaN`). -/
def countConsecutiveLowRainfallDays (xs : List ℚ) : ℕ :=
  runsScore (runsOfEqual (dryFlags xs))

/-! ## ValidityClassifier (`a.py`: `_validate_rainfall_claim`,
`_validate_drought_claim`, `_determine_claim_validity`) -/

/-- The `event_specific` record for rain/flood claims
(`_analyze_rainfall_event`). -/
structure RainEventData where
  peak_daily_rainfall : ℚ
  rainfall_intensity : ℚ
  extreme_rainfall_threshold : ℚ
  days_above_normal : ℕ
  total_period_rainfall : ℚ

/-- The `event_specific` record for drought claims
(`_analyze_drought_event`). -/
structure DroughtEventData where
  dry_spell_length : ℕ
  total_rainfall : ℚ
  avg_daily_rainfall : ℚ
  days_below_threshold : ℕ
  humidity_trend : ℚ
  temperature_anomaly : ℚ

/-- `_validate_rainfall_claim(event_data, severity)`. -/
def validateRainfallClaim (event_data : RainEventData) (severity : String) : String :=
  if event_data.peak_daily_rainfall > event_data.extreme_rainfall_threshold * (3 / 2) then
    "Validated - Extreme Rainfall Event"
  else if event_data.peak_daily_rainfall > event_data.extreme_rainfall_threshold ∧
      pyLower severity ∈ (["moderate", "severe"] : List String) then
    "Validated - Significant Rainfall"
  else if event_data.rainfall_intensity > 10 ∧ pyLower severity = "severe" then
    "Validated - High Intensity Rainfall"
  else if event_data.peak_daily_rainfall > event_data.extreme_rainfall_threshold * (3 / 4) then
    "Partially Validated - Moderate Rainfall"
  else "Invalid - Rainfall Below Expected Threshold"

/-- `_validate_drought_claim(event_data, severity)`. -/
def validateDroughtClaim (event_data : DroughtEventData) (severity : String) : String :=
  if event_data.dry_spell_length ≥ 14 ∧ pyLower severity = "severe" then
    "Validated - Severe Drought Conditions"
  else if event_data.dry_spell_length ≥ 7 ∧ event_data.days_below_threshold ≥ 5 then
    "Validated - Moderate Drought Conditions"
  else if event_data.total_rainfall < 5 ∧ event_data.dry_spell_length ≥ 5 then
    "Partially Validated - Mild Drought Conditions"
  else "Invalid - Insufficient Drought Indicators"

/-! ## First-match rule-table semantics (from the spec, for the
refinement claims about the classifier) -/

/-- Verdict of the first rule whose condition holds; the default verdict
when none does.  This is the spec's "strict, ordered rule list — first
matching rule wins" reading. -/
def firstMatchVerdict : List (Bool × String) → String → String
  | [], dflt => dflt
  | (c, v) :: rest, dflt => if c then v else firstMatchVerdict rest dflt

/-- The spec's rain/flood rule table, §4.4, rows 1-4 (row 5 is the
default verdict). -/
def rainfallRuleTable (d : RainEventData) (severity : String) : List (Bool × String) :=
  [(decide (d.peak_daily_rainfall > d.extreme_rainfall_threshold * (3 / 2)),
      "Validated - Extreme Rainfall Event"),
   (decide (d.peak_daily_rainfall > d.extreme_rainfall_threshold ∧
      pyLower severity ∈ (["moderate", "severe"] : List String)),
      "Validated - Significant Rainfall"),
   (decide (d.rainfall_intensity > 10 ∧ pyLower severity = "severe"),
      "Validated - High Intensity Rainfall"),
   (decide (d.peak_daily_rainfall > d.extreme_rainfall_threshold * (3 / 4)),
      "Partially Validated - Moderate Rainfall")]

/-- The spec's drought rule table, §4.4, rows 1-3 (row 4 is the default
verdict). -/
def droughtRuleTable (d : DroughtEventData) (severity : String) : List (Bool × String) :=
  [(decide (d.dry_spell_length ≥ 14 ∧ pyLower severity = "severe"),
      "Validated - Severe Drought Conditions"),
   (decide (d.dry_spell_length ≥ 7 ∧ d.days_below_threshold ≥ 5),
      "Validated - Moderate Drought Conditions"),
   (decide (d.total_rainfall < 5 ∧ d.dry_spell_length ≥ 5),
      "Partially Validated - Mild Drought Conditions")]

/-! ## Claim theorems: C1, C2 -/

/-- C1: for every rain/flood `event_specific` record the classifier is
exactly the first-match evaluation of the spec's ordered rain rule table
(rules 1-4 in order, default verdict otherwise); and on the concrete
input `peak_daily_rainfall = 50`, `extreme_rainfall_threshold = 30`,
severity `Severe` the verdict is `Validated - Extreme Rainfall Event`,
whatever the other fields are. -/
theorem rainfall_classifier_first_match :
    (∀ (d : RainEventData) (sev : String),
      validateRainfallClaim d sev =
        firstMatchVerdict (rainfallRuleTable d sev) "Invalid - Rainfall Below Expected Threshold") ∧
    (∀ (q t : ℚ) (n : ℕ),
      validateRainfallClaim ⟨50, q, 30, n, t⟩ "Severe" = "Validated - Extreme Rainfall Event") := by
  constructor
  · intro d sev
    simp only [validateRainfallClaim, rainfallRuleTable, firstMatchVerdict, decide_eq_true_eq]
  · intro q t n
    simp only [validateRainfallClaim]
    norm_num

/-- C2: for every drought `event_specific` record the classifier is
exactly the first-match evaluation of the spec's ordered drought rule
table (rules 1-3 in order, default verdict otherwise); and on the
concrete input `dry_spell_length = 10`, `days_below_threshold = 6`,
severity `Mild`, rule 1 fails and rule 2 fires, giving
`Validated - Moderate Drought Conditions`. -/
theorem drought_classifier_first_match :
    (∀ (d : DroughtEventData) (sev : String),
      validateDroughtClaim d sev =
        firstMatchVerdict (droughtRuleTable d sev) "Invalid - Insufficient Drought Indicators") ∧
    (∀ (tr avg ht ta : ℚ),
      validateDroughtClaim ⟨10, tr, avg, 6, ht, ta⟩ "Mild" =
        "Validated - Moderate Drought Conditions") := by
  constructor
  · intro d sev
    simp only [validateDroughtClaim, droughtRuleTable, firstMatchVerdict, decide_eq_true_eq]
  · intro tr avg ht ta
    simp only [validateDroughtClaim]
    norm_num

/-! ## Longest-dry-run machinery for C4 -/

/-- Number of leading `true`s of a boolean sequence. -/
def leadTrueLen : List Bool → ℕ
  | true :: bs => leadTrueLen bs + 1
  | _ => 0

/-- The spec's reading of the consecutive-dry-days computation: the
length of the longest run of consecutive `true`s (`0` when none), as a
direct single-pass recursion over all starting positions. -/
def maxTrueRun : List Bool → ℕ
  | [] => 0
  | b :: bs => max (leadTrueLen (b :: bs)) (maxTrueRun bs)

lemma leadTrueLen_true_cons (bs : List Bool) :
    leadTrueLen (true :: bs) = leadTrueLen bs + 1 := rfl

lemma leadTrueLen_false_cons (bs : List Bool) : leadTrueLen (false :: bs) = 0 := rfl

lemma maxTrueRun_cons (b : Bool) (bs : List Bool) :
    maxTrueRun (b :: bs) = max (leadTrueLen (b :: bs)) (maxTrueRun bs) := rfl

lemma runsScore_cons (run : List Bool) (rest : List (List Bool)) :
    runsScore (run :: rest) =
      max (if run.headD false then run.length else 0) (runsScore rest) := rfl

lemma runsOfEqual_cons_cons (b c : Bool) (cs : List Bool) :
    runsOfEqual (b :: c :: cs) =
      if b = c then (b :: (runsOfEqual (c :: cs)).headD []) :: (runsOfEqual (c :: cs)).tail
      else [b] :: runsOfEqual (c :: cs) := rfl

/-- The run partition of a nonempty sequence is nonempty, and its first
run starts with the first element. -/
lemma runsOfEqual_head (c : Bool) (cs : List Bool) :
    ∃ r rest, runsOfEqual (c :: cs) = (c :: r) :: rest := by
  induction cs generalizing c with
  | nil => exact ⟨[], [], rfl⟩
  | cons d ds ih =>
    obtain ⟨r', rest', h⟩ := ih d
    by_cases hcd : c = d
    · refine ⟨d :: r', rest', ?_⟩
      rw [runsOfEqual_cons_cons, if_pos hcd, h]
      simp only [List.headD_cons, List.tail_cons]
    · exact ⟨[], runsOfEqual (d :: ds), by rw [runsOfEqual_cons_cons, if_neg hcd]⟩

/-- The first run of the partition of a `true`-led sequence has exactly
the length of the leading `true`-streak (maximality of runs). -/
lemma leadTrueLen_runsOfEqual (cs : List Bool) :
    ∀ r rest, runsOfEqual (true :: cs) = (true :: r) :: rest →
      leadTrueLen (true :: cs) = r.length + 1 := by
  induction cs with
  | nil =>
    intro r rest h
    have h' : ([[true]] : List (List Bool)) = (true :: r) :: rest := h
    injection h' with h1 h2
    injection h1 with h0 h3
    subst h3
    rfl
  | cons d ds ih =>
    intro r rest h
    rw [runsOfEqual_cons_cons] at h
    cases d with
    | true =>
      obtain ⟨r', rest', hr⟩ := runsOfEqual_head true ds
      rw [if_pos rfl, hr] at h
      simp only [List.headD_cons, List.tail_cons] at h
      injection h with h1 h2
      injection h1 with h0 h3
      subst h3
      have hl := ih r' rest' hr
      rw [leadTrueLen_true_cons, hl]
      simp
    | false =>
      rw [if_neg (by simp)] at h
      injection h with h1 h2
      injection h1 with h0 h3
      subst h3
      rfl

/-- The pandas groupby-of-runs computation agrees with the direct
longest-`true`-streak scan. -/
lemma runsScore_eq_maxTrueRun (bs : List Bool) :
    runsScore (runsOfEqual bs) = maxTrueRun bs := by
  induction bs with
  | nil => rfl
  | cons b bs ih =>
    cases bs with
    | nil => cases b <;> rfl
    | cons c cs =>
      obtain ⟨r', rest', hr⟩ := runsOfEqual_head c cs
      by_cases hbc : b = c
      · subst hbc
        rw [runsOfEqual_cons_cons, if_pos rfl, hr]
        simp only [List.headD_cons, List.tail_cons]
        have ihs : max (if b then (b :: r').length else 0) (runsScore rest') =
            maxTrueRun (b :: cs) := by rw [← ih, hr, runsScore_cons]; rfl
        cases b
        · simp only [runsScore_cons, List.headD_cons, if_neg (by simp : ¬(false = true)),
            maxTrueRun_cons, leadTrueLen_false_cons] at ihs ⊢
          omega
        · have hl : leadTrueLen (true :: cs) = r'.length + 1 :=
            leadTrueLen_runsOfEqual cs r' rest' hr
          simp only [runsScore_cons, List.headD_cons, if_pos rfl, List.length_cons,
            maxTrueRun_cons, leadTrueLen_true_cons, hl, if_true] at ihs ⊢
          omega
      · rw [runsOfEqual_cons_cons, if_neg hbc, runsScore_cons, ih]
        conv_rhs => rw [maxTrueRun_cons]
        cases b
        · simp [leadTrueLen_false_cons]
        · cases c
          · simp [leadTrueLen_true_cons, leadTrueLen_false_cons]
          · exact absurd rfl hbc

/-! ## Claim theorems: C4 (corrected)

The claim's general description of the algorithm holds, but its worked
example is wrong about its own algorithm: on
`[0.0, 0.05, 5.0, 0.02, 0.0, 0.0]` with threshold `0.1` the dry flags
are `[T, T, F, T, T, T]` — days 3, 4 and 5 form a single dry run of
length 3 — so the dry-run lengths are `[2, 3]` and the longest is `3`,
not `[2, 1, 2]` and `2`. -/

/-- Dry flags of the spec's worked example series
`[0.0, 0.05, 5.0, 0.02, 0.0, 0.0]` with threshold `0.1`. -/
lemma dryFlags_example :
    dryFlags [0, 1 / 20, 5, 1 / 50, 0, 0] = [true, true, false, true, true, true] := by
  simp only [dryFlags, List.map, decide_eq_true_eq, decide_eq_false_iff_not,
    List.cons.injEq, and_true]
  norm_num

/-- C4, counterexample: on the claim's own example series the dry-run
lengths are `[2, 3]`, not `[2, 1, 2]`, and the computed longest dry run
is `3`, not `2`. -/
theorem consecutive_dry_days_example_counterexample :
    ((runsOfEqual (dryFlags [0, 1 / 20, 5, 1 / 50, 0, 0])).filter
        fun run => run.headD false).map List.length = [2, 3] ∧
    ([2, 3] : List ℕ) ≠ [2, 1, 2] ∧
    countConsecutiveLowRainfallDays [0, 1 / 20, 5, 1 / 50, 0, 0] = 3 ∧
    (3 : ℕ) ≠ 2 := by
  refine ⟨?_, by decide, ?_, by decide⟩
  · rw [dryFlags_example]
    decide
  · show runsScore (runsOfEqual (dryFlags [0, 1 / 20, 5, 1 / 50, 0, 0])) = 3
    rw [dryFlags_example]
    decide

/-- C4, amended: the consecutive-dry-days computation marks a day dry
exactly when its rainfall is `< 0.1`, partitions the dry/wet flags into
maximal runs of identical value, and returns the length of the longest
dry run (it agrees with the direct longest-`true`-streak scan
`maxTrueRun`, which is `0` when no day is dry); on the series
`[0.0, 0.05, 5.0, 0.02, 0.0, 0.0]` the dry flags are
`[T, T, F, T, T, T]`, the dry-run lengths are `[2, 3]` and the result is
`3`. -/
theorem consecutive_dry_days_longest_run :
    (∀ xs : List ℚ, countConsecutiveLowRainfallDays xs = maxTrueRun (dryFlags xs)) ∧
    dryFlags [0, 1 / 20, 5, 1 / 50, 0, 0] = [true, true, false, true, true, true] ∧
    ((runsOfEqual (dryFlags [0, 1 / 20, 5, 1 / 50, 0, 0])).filter
        fun run => run.headD false).map List.length = [2, 3] ∧
    countConsecutiveLowRainfallDays [0, 1 / 20, 5, 1 / 50, 0, 0] = 3 := by
  refine ⟨fun xs => runsScore_eq_maxTrueRun (dryFlags xs), dryFlags_example, ?_, ?_⟩
  · rw [dryFlags_example]
    decide
  · show runsScore (runsOfEqual (dryFlags [0, 1 / 20, 5, 1 / 50, 0, 0])) = 3
    rw [dryFlags_example]
    decide

/-! ## ClaimValidationEngine: input validation and window-size policy
(`a.py`: `_validate_claim_inputs`, `_determine_analysis_period`) -/

/-- `_determine_analysis_period(claim_details)`: drought claims get 30
days for "this month" and otherwise `max(Days, 7)` with `Days`
defaulting to 7; non-drought claims get 30 for "this month", 2 for
"yesterday" and 1 otherwise. -/
def determineAnalysisPeriod (claim : ClaimDetails) : ℤ :=
  if pyLower (claim.eventType.getD "") = "drought" then
    if pyLower (claim.dateDescriptor.getD "") = "this month" then 30
    else max (claim.days.getD 7) 7
  else if pyLower (claim.dateDescriptor.getD "") = "this month" then 30
  else if pyLower (claim.dateDescriptor.getD "") = "yesterday" then 2
  else 1

/-- `_validate_claim_inputs(claim_details)`: all of Location, Date,
Event Type and Severity must be present, and a drought claim must have
`Days` (default 0) at least 7. -/
def validateClaimInputs (claim : ClaimDetails) : Bool × Option String :=
  if claim.location.isSome ∧ claim.date.isSome ∧
      claim.eventType.isSome ∧ claim.severity.isSome then
    if pyLower (claim.eventType.getD "") = "drought" ∧ claim.days.getD 0 < 7 then
      (false, some "Drought claims require minimum 7 days of data")
    else (true, none)
  else (false, some "Missing required claim details")

/-- The spec's window-size policy table (§4.5 step 2), read as a flat
first-match table: drought + "this month" → 30; drought → max(Days, 7);
"this month" → 30; "yesterday" → 2; default → 1. -/
def windowSizePolicySpec (claim : ClaimDetails) : ℤ :=
  if pyLower (claim.eventType.getD "") = "drought" ∧
      pyLower (claim.dateDescriptor.getD "") = "this month" then 30
  else if pyLower (claim.eventType.getD "") = "drought" then max (claim.days.getD 7) 7
  else if pyLower (claim.dateDescriptor.getD "") = "this month" then 30
  else if pyLower (claim.dateDescriptor.getD "") = "yesterday" then 2
  else 1

/-! ## Claim theorem: C6 -/

/-- C6: the engine's window-size computation agrees with the spec's
policy table for every claim (whether or not it passes input
validation): 30 days for drought + "this month"; `max(Days, 7)` for any
other drought claim; 30 for non-drought "this month"; 2 for non-drought
"yesterday"; 1 otherwise. -/
theorem window_size_policy_matches_spec (claim : ClaimDetails) :
    determineAnalysisPeriod claim = windowSizePolicySpec claim := by
  simp only [determineAnalysisPeriod, windowSizePolicySpec]
  split_ifs <;> first | rfl | tauto

/-! ## Claim theorem: C7 -/

/-- C7: each of the three unit-suffixed payload fields is parsed by
taking the substring before the unit token (then `float()`); a failed
parse degrades that single field to `0.0` while the observation is still
returned in full with the other fields parsed normally, and no error is
reported.  Concretely, `"12.3 mm"` parses to `12.3`, and a payload with
corrupt rainfall still yields an observation with rainfall `0.0`,
temperature `18.0` and humidity `55.0`. -/
theorem gateway_field_degrade_policy :
    (∀ v u : String, pyFloat (pyStrip (splitFirst u.data v.data)) = none →
      parseNumericValue v u = 0) ∧
    (∀ (loc : String) (d : ℤ) (p : ProviderPayload),
      getWeatherData loc d p =
        { rainfall := parseNumericValue (p.rainfall.getD "0") "mm"
          temperature := parseNumericValue (p.temperature.getD "0") "°"
          humidity := parseNumericValue (p.humidity.getD "0") "%"
          location := loc
          date := d }) ∧
    parseNumericValue "12.3 mm" "mm" = 123 / 10 ∧
    (getWeatherData "Lagos" 0 ⟨some "garbage", some "18.0°C", some "55%"⟩).rainfall = 0 ∧
    (getWeatherData "Lagos" 0 ⟨some "garbage", some "18.0°C", some "55%"⟩).temperature = 18 ∧
    (getWeatherData "Lagos" 0 ⟨some "garbage", some "18.0°C", some "55%"⟩).humidity = 55 := by
  refine ⟨?_, fun loc d p => rfl, ?_, rfl, ?_, ?_⟩
  · intro v u h
    unfold parseNumericValue
    rw [h]
    rfl
  · have h : parseNumericValue "12.3 mm" "mm" =
        ((12 : ℕ) : ℚ) + ((3 : ℕ) : ℚ) / (10 : ℚ) ^ (1 : ℕ) := rfl
    rw [h]
    norm_num
  · have h : (getWeatherData "Lagos" 0 ⟨some "garbage", some "18.0°C", some "55%"⟩).temperature =
        ((18 : ℕ) : ℚ) + ((0 : ℕ) : ℚ) / (10 : ℚ) ^ (1 : ℕ) := rfl
    rw [h]
    norm_num
  · have h : (getWeatherData "Lagos" 0 ⟨some "garbage", some "18.0°C", some "55%"⟩).humidity =
        ((55 : ℕ) : ℚ) := rfl
    rw [h]
    norm_num

/-- C7, witness: on the concrete corrupt field `"garbage"` the float
parse fails and the parsed value degrades to `0`. -/
theorem gateway_field_degrade_policy_witness :
    pyFloat (pyStrip (splitFirst ("mm" : String).data ("garbage" : String).data)) = none ∧
    parseNumericValue "garbage" "mm" = 0 :=
  ⟨rfl, gateway_field_degrade_policy.1 "garbage" "mm" rfl⟩

/-! ## StatisticalAnalyzer (`a.py`: `_analyze_rainfall_event`,
`_analyze_drought_event`, `_analyze_historical_context`) -/

/-- `data.groupby('date')['rainfall'].sum()`: per-day rainfall totals,
keyed by the sorted distinct dates (groupby sorts its keys). -/
def dailyRainfallTotals (data : List Observation) : List ℚ :=
  (sortAsc (data.map fun o => o.date).dedup).map fun d =>
    ((data.filter fun o => o.date == d).map fun o => o.rainfall).sum

/-- `Series.rolling(window=7).mean()`: the trailing 7-day mean at each
position, `NaN` (here `none`) at the first six positions, which have no
complete window. -/
def rollingMean7 (xs : List ℚ) : List (Option ℚ) :=
  (List.range xs.length).map fun i =>
    if 6 ≤ i then some (seriesMean ((xs.drop (i - 6)).take 7)) else none

/-- `Series.mean()` over a series containing `NaN`s: the `NaN` entries
are skipped.  All-`NaN` or empty yields `0` (pandas: `NaN`). -/
def meanSkipNone (l : List (Option ℚ)) : ℚ := seriesMean (l.filterMap id)

/-- The `temperature_anomaly` metric of `_analyze_drought_event`:
`(data['temperature'].mean() - data['temperature'].rolling(window=7).mean()).mean()`
— the scalar overall mean minus the rolling-mean series (broadcast),
then the mean of that series with its six leading `NaN`s skipped. -/
def temperatureAnomaly (xs : List ℚ) : ℚ :=
  meanSkipNone ((rollingMean7 xs).map fun o => o.map fun r => seriesMean xs - r)

open Classical in
/-- `_analyze_rainfall_event(data)`. -/
noncomputable def analyzeRainfallEvent (data : List Observation) : RainEventData :=
  { peak_daily_rainfall := seriesMax (dailyRainfallTotals data)
    rainfall_intensity := seriesMax (dailyRainfallTotals data) / 24
    extreme_rainfall_threshold := pandasQuantile (dailyRainfallTotals data) (19 / 20)
    days_above_normal :=
      ((dailyRainfallTotals data).filter fun t =>
        decide ((t : ℝ) > ((seriesMean (dailyRainfallTotals data) : ℚ) : ℝ) +
          seriesStd (dailyRainfallTotals data))).length
    total_period_rainfall := (dailyRainfallTotals data).sum }

/-- `_analyze_drought_event(data)`. -/
def analyzeDroughtEvent (data : List Observation) : DroughtEventData :=
  { dry_spell_length := countConsecutiveLowRainfallDays (data.map fun o => o.rainfall)
    total_rainfall := (data.map fun o => o.rainfall).sum
    avg_daily_rainfall := seriesMean (data.map fun o => o.rainfall)
    days_below_threshold :=
      ((data.map fun o => o.rainfall).filter fun r => decide (r < 1 / 10)).length
    humidity_trend := diffMean (data.map fun o => o.humidity)
    temperature_anomaly := temperatureAnomaly (data.map fun o => o.temperature) }

/-- The base `rainfall_stats` sub-record of `_analyze_historical_context`. -/
structure RainfallStats where
  mean : ℚ
  median : ℚ
  max : ℚ
  std : ℝ
  consecutive_dry_days : ℕ
  total_rainfall : ℚ

/-- The base `temperature_stats` sub-record of
`_analyze_historical_context`. -/
structure TemperatureStats where
  mean : ℚ
  max : ℚ
  min : ℚ
  range : ℚ

/-- The `event_specific` sub-record: a rain/flood record or a drought
record, depending on the event type. -/
inductive EventSpecific where
  | rainfallEvent (d : RainEventData)
  | droughtEvent (d : DroughtEventData)

/-- The dict returned by `_analyze_historical_context`: either the
no-data marker (a dict with only an `analysis` message) or the stats
dict, whose `event_specific` key is present exactly for
rain/flood/drought event types. -/
inductive HistoricalAnalysis where
  | noData
  | stats (rainfall_stats : RainfallStats) (temperature_stats : TemperatureStats)
      (event_specific : Option EventSpecific)

open Classical in
/-- `_analyze_historical_context(historical_data, event_type, severity)`.
Note the raw (not lowercased) `event_type` comparisons, as in the
source.  `severity` is accepted and unused, as in the source. -/
noncomputable def analyzeHistoricalContext (historical_data : List Observation)
    (event_type severity : String) : HistoricalAnalysis :=
  if historical_data.isEmpty then .noData
  else
    .stats
      { mean := seriesMean (historical_data.map fun o => o.rainfall)
        median := pandasQuantile (historical_data.map fun o => o.rainfall) (1 / 2)
        max := seriesMax (historical_data.map fun o => o.rainfall)
        std := seriesStd (historical_data.map fun o => o.rainfall)
        consecutive_dry_days :=
          countConsecutiveLowRainfallDays (historical_data.map fun o => o.rainfall)
        total_rainfall := (historical_data.map fun o => o.rainfall).sum }
      { mean := seriesMean (historical_data.map fun o => o.temperature)
        max := seriesMax (historical_data.map fun o => o.temperature)
        min := seriesMin (historical_data.map fun o => o.temperature)
        range := seriesMax (historical_data.map fun o => o.temperature) -
          seriesMin (historical_data.map fun o => o.temperature) }
      (if event_type = "rain" ∨ event_type = "flood" then
        some (.rainfallEvent (analyzeRainfallEvent historical_data))
      else if event_type = "drought" then
        some (.droughtEvent (analyzeDroughtEvent historical_data))
      else none)

/-- `_determine_claim_validity(analysis, event_type, severity)` of
`a.py`.  The guard `if not analysis or 'event_specific' not in analysis`
covers both the no-data marker and a stats dict without the
`event_specific` key.  A `none` result models the `KeyError` that a
mismatched `event_specific` record shape would raise inside the
`_validate_*_claim` helpers (unreachable through the pipeline, which
builds the record shape from the same event-type comparison). -/
def determineClaimValidity (analysis : HistoricalAnalysis)
    (event_type severity : String) : Option String :=
  match analysis with
  | .noData => some "Unable to Validate - Insufficient Data"
  | .stats _ _ none => some "Unable to Validate - Insufficient Data"
  | .stats _ _ (some ed) =>
    if event_type = "rain" ∨ event_type = "flood" then
      match ed with
      | .rainfallEvent d => some (validateRainfallClaim d severity)
      | .droughtEvent _ => none
    else if event_type = "drought" then
      match ed with
      | .droughtEvent d => some (validateDroughtClaim d severity)
      | .rainfallEvent _ => none
    else some "Unable to Validate - Unknown Event Type"

/-! ## HistoricalWindowBuilder and orchestration -/

/-- The result dict of `analyze_claim` (`a.py`); absent keys are `none`. -/
structure ValidationResult where
  validation_status : String
  error_message : Option String := none
  historical_analysis : Option HistoricalAnalysis := none
  data_period : Option String := none
  location : Option String := none

/-- `fetch_historical_weather(location, base_date, days_before)` of
`WeatherClaimValidator.py`, as written: the gateway call is indented at
the level of the `for` loop, not inside it, so the loop only advances
`check_date` and a single gateway call is made after the loop, for the
oldest day `base_date - (days_before - 1)`.  For `days_before <= 0` the
loop never runs and the later use of `check_date` raises
`UnboundLocalError` (`none` here).  The second component counts the
gateway calls issued.  The gateway function `gw` abstracts
`get_weather_data` (`none` = request/parse failure, which that method
turns into `None`). -/
def fetchHistoricalWeather (gw : String → ℤ → Option Observation)
    (location : String) (base_date : ℤ) (days_before : ℤ) :
    Option (List Observation × ℕ) :=
  if days_before ≤ 0 then none
  else
    let check_date := base_date - (days_before - 1)
    match gw location check_date with
    | some obs => some ([{ obs with date := check_date }], 1)
    | none => some ([], 1)

/-- `analyze_claim(claim_details)` of `a.py`.  The class in `a.py` does
not itself define `fetch_historical_weather`; the definition lives in
the earlier variant (`WeatherClaimValidator.py`), which this composition
uses, matching the spec's component decomposition.  The `ℕ` component
counts gateway calls. -/
noncomputable def analyzeClaim (gw : String → ℤ → Option Observation)
    (claim : ClaimDetails) : Option (ValidationResult × ℕ) :=
  match validateClaimInputs claim with
  | (false, msg) => some ({ validation_status := "Invalid Claim", error_message := msg }, 0)
  | (true, _) =>
    match fetchHistoricalWeather gw (claim.location.getD "") (claim.date.getD 0)
        (determineAnalysisPeriod claim) with
    | none => none
    | some (historical_data, calls) =>
      if historical_data.isEmpty then
        some ({ validation_status := "Unable to Validate"
                error_message := some "No weather data available" }, calls)
      else
        match determineClaimValidity
            (analyzeHistoricalContext historical_data
              (claim.eventType.getD "") (claim.severity.getD ""))
            (claim.eventType.getD "") (claim.severity.getD "") with
        | none => none
        | some status =>
          some ({ validation_status := status
                  historical_analysis := some (analyzeHistoricalContext historical_data
                    (claim.eventType.getD "") (claim.severity.getD ""))
                  data_period := some (toString (determineAnalysisPeriod claim) ++ " days")
                  location := claim.location }, calls)

/-! ## Claim theorem: C5 -/

/-- C5: a claim missing any of Location, Date, Event Type or Severity,
and a drought claim whose `Days` (default 0) is below 7, is rejected
with `Invalid Claim` and a descriptive error message, and no gateway
call is issued. -/
theorem invalid_claim_no_gateway_calls (gw : String → ℤ → Option Observation)
    (claim : ClaimDetails)
    (h : claim.location = none ∨ claim.date = none ∨ claim.eventType = none ∨
      claim.severity = none ∨
      (pyLower (claim.eventType.getD "") = "drought" ∧ claim.days.getD 0 < 7)) :
    ∃ msg : String, analyzeClaim gw claim =
      some ({ validation_status := "Invalid Claim", error_message := some msg,
              historical_analysis := none, data_period := none, location := none }, 0) := by
  have hval : ∃ m : String, validateClaimInputs claim = (false, some m) := by
    by_cases hall : claim.location.isSome ∧ claim.date.isSome ∧
        claim.eventType.isSome ∧ claim.severity.isSome
    · refine ⟨"Drought claims require minimum 7 days of data", ?_⟩
      have hdr : pyLower (claim.eventType.getD "") = "drought" ∧ claim.days.getD 0 < 7 := by
        rcases h with h | h | h | h | h
        · exact absurd hall.1 (by rw [h]; simp)
        · exact absurd hall.2.1 (by rw [h]; simp)
        · exact absurd hall.2.2.1 (by rw [h]; simp)
        · exact absurd hall.2.2.2 (by rw [h]; simp)
        · exact h
      rw [validateClaimInputs, if_pos hall, if_pos hdr]
    · exact ⟨"Missing required claim details", by rw [validateClaimInputs, if_neg hall]⟩
  obtain ⟨m, hm⟩ := hval
  refine ⟨m, ?_⟩
  unfold analyzeClaim
  rw [hm]

/-- C5, witness: the wholly empty claim dict is rejected with
`Invalid Claim` and zero gateway calls. -/
theorem invalid_claim_no_gateway_calls_witness :
    ∃ msg : String, analyzeClaim (fun _ _ => none) ⟨none, none, none, none, none, none⟩ =
      some ({ validation_status := "Invalid Claim", error_message := some msg,
              historical_analysis := none, data_period := none, location := none }, 0) :=
  invalid_claim_no_gateway_calls (fun _ _ => none)
    ⟨none, none, none, none, none, none⟩ (Or.inl rfl)

/-! ## Claim theorem: C3 (code bug)

The spec says the window builder makes one gateway call per requested
day; the source's `for` loop is mis-indented so only the final
`check_date` (the oldest requested day) is fetched, with a single
gateway call. -/

/-- C3: with an always-succeeding gateway and 3 requested days anchored
at day 0, the builder issues exactly 1 gateway call and returns a window
holding only the oldest day `-2` — not 3 calls and 3 days as the claim
states. -/
theorem fetch_historical_weather_single_call :
    (fetchHistoricalWeather
        (fun loc d =>
          some { rainfall := 0, temperature := 0, humidity := 0, location := loc, date := d })
        "Lagos" 0 3).map (fun p => (p.1.map Observation.date, p.2)) =
      some ([-2], 1) := rfl

/-! ## Claim theorems: C9 (corrected)

For an event type that is none of rain/flood/drought,
`_analyze_historical_context` produces no `event_specific` key, so
`_determine_claim_validity` exits through its
`'event_specific' not in analysis` guard with
`Unable to Validate - Insufficient Data`; its
`Unable to Validate - Unknown Event Type` return is unreachable through
the pipeline. -/

/-- C9, counterexample: a one-day window analyzed for event type
`"hail"` classifies as `Unable to Validate - Insufficient Data`, not
`Unable to Validate - Unknown Event Type`. -/
theorem unknown_event_type_counterexample :
    determineClaimValidity
        (analyzeHistoricalContext
          [{ rainfall := 0, temperature := 0, humidity := 0, location := "Lagos", date := 0 }]
          "hail" "severe") "hail" "severe" =
      some "Unable to Validate - Insufficient Data" ∧
    ("Unable to Validate - Insufficient Data" : String) ≠
      "Unable to Validate - Unknown Event Type" :=
  ⟨rfl, by decide⟩

/-- C9, amended: for every window and every event type that is none of
rain, flood or drought, the analysis carries no `event_specific`
sub-record and the classifier returns
`Unable to Validate - Insufficient Data` (the
`Unable to Validate - Unknown Event Type` verdict is unreachable through
the pipeline). -/
theorem unknown_event_type_amended (window : List Observation) (et sev : String)
    (h1 : et ≠ "rain") (h2 : et ≠ "flood") (h3 : et ≠ "drought") :
    determineClaimValidity (analyzeHistoricalContext window et sev) et sev =
      some "Unable to Validate - Insufficient Data" := by
  unfold analyzeHistoricalContext
  by_cases hw : window.isEmpty
  · rw [if_pos hw]
    rfl
  · rw [if_neg hw,
      if_neg (by rintro (h | h); exacts [h1 h, h2 h]),
      if_neg h3]
    rfl

/-- C9, witness for the amended theorem: the concrete event type
`"hail"` on a one-day window. -/
theorem unknown_event_type_amended_witness :
    determineClaimValidity
        (analyzeHistoricalContext
          [{ rainfall := 1, temperature := 20, humidity := 50, location := "Kano", date := 5 }]
          "hail" "mild") "hail" "mild" =
      some "Unable to Validate - Insufficient Data" :=
  unknown_event_type_amended _ "hail" "mild" (by decide) (by decide) (by decide)

/-! ## Claim theorems: C8 (corrected)

The source computes `data['temperature'].mean()` — a scalar, the overall
window mean — minus the rolling-mean series, not each day's own
temperature minus its rolling mean as the claim says. -/

/-- The claim's reading of `temperature_anomaly`: the mean over days of
each day's OWN temperature minus that day's 7-day trailing rolling mean,
the first six days excluded. -/
def temperatureAnomalyClaimed (xs : List ℚ) : ℚ :=
  meanSkipNone ((List.range xs.length).map fun i =>
    if 6 ≤ i then some (xs.getD i 0 - seriesMean ((xs.drop (i - 6)).take 7)) else none)

/-- The amended reading: the mean over days with a complete 7-day window
of the overall window-mean temperature minus that day's 7-day trailing
rolling mean, the first six days excluded. -/
def temperatureAnomalyMeanDeviation (xs : List ℚ) : ℚ :=
  meanSkipNone ((List.range xs.length).map fun i =>
    if 6 ≤ i then some (seriesMean xs - seriesMean ((xs.drop (i - 6)).take 7)) else none)

/-- C8, counterexample: on the temperature series
`[0, 0, 0, 0, 0, 0, 7]` the source's `temperature_anomaly` is `0`
(overall mean `1` minus the single rolling mean `1`), while the claim's
per-day-deviation reading gives `6` (day 7's temperature `7` minus its
rolling mean `1`). -/
theorem temperature_anomaly_counterexample :
    temperatureAnomaly [0, 0, 0, 0, 0, 0, 7] = 0 ∧
    temperatureAnomalyClaimed [0, 0, 0, 0, 0, 0, 7] = 6 ∧
    (0 : ℚ) ≠ 6 := by
  have hr : List.range (List.length ([0, 0, 0, 0, 0, 0, 7] : List ℚ)) =
      [0, 1, 2, 3, 4, 5, 6] := rfl
  refine ⟨?_, ?_, by norm_num⟩
  · simp only [temperatureAnomaly, rollingMean7, meanSkipNone, seriesMean, hr,
      List.map_cons, List.map_nil, List.filterMap_cons, List.filterMap_nil]
    norm_num
  · simp only [temperatureAnomalyClaimed, meanSkipNone, seriesMean, hr,
      List.map_cons, List.map_nil, List.filterMap_cons, List.filterMap_nil]
    norm_num

/-- C8, amended: the `temperature_anomaly` metric equals the mean, over
the days with a complete 7-day trailing window (the first six days are
excluded, not zero-filled), of the overall window-mean temperature minus
that day's 7-day trailing rolling mean. -/
theorem temperature_anomaly_amended (xs : List ℚ) :
    temperatureAnomaly xs = temperatureAnomalyMeanDeviation xs := by
  unfold temperatureAnomaly temperatureAnomalyMeanDeviation rollingMean7
  rw [List.map_map]
  congr 1
  apply List.map_congr_left
  intro i hi
  by_cases h6 : 6 ≤ i <;> simp [h6]

/-! ## The earlier validator variant (`WeatherClaimValidator.py`):
rainfall anomaly and classifier, for C10 -/

/-- The `rainfall_anomaly` dict of `_compute_rainfall_anomaly`. -/
structure RainfallAnomaly where
  z_score : ℝ
  is_extreme : Bool

/-- The `drought_indicators` dict of `_compute_drought_indicators`. -/
structure DroughtIndicators where
  consecutive_dry_days : ℕ
  humidity_trend : ℚ

/-- `_compute_rainfall_anomaly(historical_data)`:
`z_score = (mean - max) / std`, `is_extreme = max > quantile(0.95)`. -/
noncomputable def computeRainfallAnomaly (xs : List ℚ) : RainfallAnomaly :=
  { z_score := ((seriesMean xs - seriesMax xs : ℚ) : ℝ) / seriesStd xs
    is_extreme := decide (seriesMax xs > pandasQuantile xs (19 / 20)) }

/-- `_compute_drought_indicators(historical_data)`. -/
def computeDroughtIndicators (data : List Observation) : DroughtIndicators :=
  { consecutive_dry_days := countConsecutiveLowRainfallDays (data.map fun o => o.rainfall)
    humidity_trend := diffMean (data.map fun o => o.humidity) }

open Classical in
/-- `_determine_claim_validity` of `WeatherClaimValidator.py`, over the
two optional sub-records of the analysis dict (`dict.get` with defaults
`False` and `0`); the `isinstance(historical_analysis, str)` guard has no
counterpart because the sub-records are passed directly.  Note the raw
comparisons `severity == 'Heavy'` and the uncased event types, as in the
source. -/
noncomputable def determineClaimValidityV1 (rainfall_anomaly : Option RainfallAnomaly)
    (drought_indicators : Option DroughtIndicators) (event_type severity : String) : String :=
  if event_type = "rain" ∨ event_type = "flood" then
    if (rainfall_anomaly.map RainfallAnomaly.is_extreme).getD false then
      "Validated - Extreme Rainfall Event"
    else if severity = "Heavy" ∧ (rainfall_anomaly.map RainfallAnomaly.z_score).getD 0 > 2 then
      "Partially Validated - Significant Rainfall Anomaly"
    else "Inconclusive - Need Further Investigation"
  else if event_type = "drought" then
    if (drought_indicators.map DroughtIndicators.consecutive_dry_days).getD 0 > 0 then
      "Validated - Drought Conditions"
    else "Inconclusive - Need Further Investigation"
  else "Inconclusive - Need Further Investigation"

/-- Every element of a fold over `max` is bounded by the fold, and the
seed is too. -/
lemma le_foldl_max (xs : List ℚ) : ∀ a : ℚ,
    a ≤ xs.foldl max a ∧ ∀ x ∈ xs, x ≤ xs.foldl max a := by
  induction xs with
  | nil => intro a; exact ⟨le_refl a, by simp⟩
  | cons y ys ih =>
    intro a
    simp only [List.foldl_cons]
    constructor
    · exact le_trans (le_max_left a y) (ih (max a y)).1
    · intro x hx
      rcases List.mem_cons.mp hx with rfl | hx
      · exact le_trans (le_max_right a x) (ih (max a x)).1
      · exact (ih (max a y)).2 x hx

/-- Every element of a series is at most its maximum. -/
lemma mem_le_seriesMax (xs : List ℚ) (x : ℚ) (hx : x ∈ xs) : x ≤ seriesMax xs := by
  cases xs with
  | nil => cases hx
  | cons y ys =>
    rcases List.mem_cons.mp hx with rfl | hmem
    · exact (le_foldl_max ys x).1
    · exact (le_foldl_max ys y).2 x hmem

/-- The mean of a nonempty series never exceeds its maximum. -/
lemma seriesMean_le_seriesMax (xs : List ℚ) (h : xs ≠ []) :
    seriesMean xs ≤ seriesMax xs := by
  have hlen : 0 < (xs.length : ℚ) := by
    have := List.length_pos.mpr h
    exact_mod_cast this
  rw [seriesMean, div_le_iff hlen]
  calc xs.sum ≤ xs.length • seriesMax xs :=
        List.sum_le_card_nsmul xs (seriesMax xs) (fun x hx => mem_le_seriesMax xs x hx)
    _ = seriesMax xs * (xs.length : ℚ) := by rw [nsmul_eq_mul]; ring

/-! ## Claim theorem: C10 -/

/-- C10: the earlier variant's `z_score = (mean - max) / std` is never
positive on any nonempty window (the mean never exceeds the maximum and
the standard deviation is nonnegative), so the classifier branch that
needs severity `Heavy` and `z_score > 2` can never fire: the verdict
`Partially Validated - Significant Rainfall Anomaly` is unreachable for
every window, event type and severity. -/
theorem rainfall_anomaly_partial_verdict_unreachable (xs : List ℚ) (hxs : xs ≠ []) :
    (computeRainfallAnomaly xs).z_score ≤ 0 ∧
    ∀ (di : Option DroughtIndicators) (et sev : String),
      determineClaimValidityV1 (some (computeRainfallAnomaly xs)) di et sev ≠
        "Partially Validated - Significant Rainfall Anomaly" := by
  have hz : (computeRainfallAnomaly xs).z_score ≤ 0 := by
    show ((seriesMean xs - seriesMax xs : ℚ) : ℝ) / seriesStd xs ≤ 0
    apply div_nonpos_of_nonpos_of_nonneg
    · have hq : seriesMean xs - seriesMax xs ≤ 0 :=
        sub_nonpos.mpr (seriesMean_le_seriesMax xs hxs)
      exact_mod_cast hq
    · exact Real.sqrt_nonneg _
  refine ⟨hz, ?_⟩
  intro di et sev
  unfold determineClaimValidityV1
  simp only [Option.map_some', Option.getD_some]
  split_ifs with h1 h2 h3 h4 h5
  · decide
  · exact absurd h3.2 (by simpa using not_lt.mpr (le_trans hz (by norm_num)))
  · decide
  · decide
  · decide
  · decide

/-- C10, witness: the concrete window `[1, 2]`. -/
theorem rainfall_anomaly_partial_verdict_unreachable_witness :
    (computeRainfallAnomaly [1, 2]).z_score ≤ 0 ∧
    ∀ (di : Option DroughtIndicators) (et sev : String),
      determineClaimValidityV1 (some (computeRainfallAnomaly [1, 2])) di et sev ≠
        "Partially Validated - Significant Rainfall Anomaly" :=
  rainfall_anomaly_partial_verdict_unreachable [1, 2] (List.cons_ne_nil 1 [2])
